import Mathlib

/-!
Shallow embedding of `src/record_redis/cache.py` (class `RedisCache`).

Modelling choices:

* A record (`dict` of field name to field value) is `Rec`, an association
  list of strings.
* The serialization library `jsonb` is an external collaborator, treated
  as an opaque `encode`/`decode` pair.  Redis values are therefore
  modelled by the sum type `Wire`: either a plain string (`Wire.str`,
  covering the negative marker `"0"`, primary ids stored under index
  keys, and arbitrary foreign values) or an encoded record
  (`Wire.enc r`, the result of `jsonb.encode`).  This bakes in exactly
  the assumptions the design grants the serializer: encoding is
  invertible, never empty, and never collides with the reserved marker.
* The Redis database state is `RState`, an association list from keys to
  `Wire` values where writes shadow older entries.  TTL expiry is not a
  state transition here; instead every issued `SET` records the `ex`
  argument it carried, so TTL claims are settled on the command trace.
* Every cache operation returns, next to its result, the list of network
  round trips it performed: `List Batch`, where one `Batch` (one
  pipelined round trip) is a list of commands `RCmd`.  A plain
  `GET`/`SET`/`MGET`/script call is a batch of one command; a pipeline
  is one batch of many commands.
* Python exceptions (`ValueError`, `TypeError`, `KeyError`, redis script
  and client errors) are the error type `PyErr`, and fallible operations
  return `Except PyErr`.
-/

/-- A structured record: field name to field value, as stored by the cache. -/
abbrev Rec : Type := List (String × String)

/-- A value living at a Redis key: a plain string, or the opaque
`jsonb.encode` serialization of a record. -/
inductive Wire
  | str (s : String)
  | enc (r : Rec)
deriving DecidableEq

/-- The concrete text an encoded record would occupy on the wire, needed only
when a stored value is itself used as a key by the secondary-lookup script. -/
def encRec (r : Rec) : String :=
  "\x7b" ++ String.intercalate "," (r.map (fun p => p.1 ++ ":" ++ p.2)) ++ "\x7d"

/-- The string a `Wire` value contributes when used as a Redis key. -/
def wireKey : Wire → String
  | .str s => s
  | .enc r => encRec r

/-- Python truthiness of a fetched raw value: `None` and `""` are falsy;
an encoded record (nonempty JSON text) is always truthy. -/
def truthy : Wire → Bool
  | .str s => s ≠ ""
  | .enc _ => true

/-- The `sRecord == '0'` comparison against the reserved negative marker.
An encoded record never equals the bare scalar `"0"`. -/
def isMarker : Wire → Bool
  | .str s => s = "0"
  | .enc _ => false

/-- `jsonb.decode` on a raw value: inverts `jsonb.encode`, raises on
anything that is not an encoding of a record. -/
inductive PyErr
  | typeError (msg : String)
  | valueError (arg : String) (msg : String)
  | keyError (k : String)
  | scriptError (msg : String)
  | decodeError (s : String)
  | attributeError (msg : String)
  | dataError (msg : String)
deriving DecidableEq

def decodeWire : Wire → Except PyErr Rec
  | .enc r => .ok r
  | .str s => .error (.decodeError s)

/-- The Redis database: an association list where a write shadows older
entries for the same key. -/
abbrev RState : Type := List (String × Wire)

/-- `GET key` against the modelled database. -/
def rget : RState → String → Option Wire
  | [], _ => none
  | p :: rest, k => if p.1 = k then some p.2 else rget rest k

/-- `SET key value` against the modelled database (expiry is tracked on the
command trace, not in the state). -/
def rset (st : RState) (k : String) (v : Wire) : RState :=
  (k, v) :: st

/-- One Redis command as issued over the connection. -/
inductive RCmd
  | set (key : String) (val : Wire) (ex : Option Int)
  | get (key : String)
  | mget (keys : List String)
  | evalScript (keys : List String)
deriving DecidableEq

/-- One network round trip: a single command or a pipelined batch. -/
abbrev Batch : Type := List RCmd

/-- The `ex = ttl or None` idiom: a falsy (zero) ttl is sent as no expiry. -/
def exOf (ttl : Int) : Option Int :=
  if ttl = 0 then none else some ttl

/-- The constructed `RedisCache` instance: `self._ttl` and `self._indexes`
(a dict from index name to its ordered field list, insertion ordered). -/
structure Cache where
  ttl : Int
  indexes : List (String × List String)
deriving DecidableEq

/-- Python `name in self._indexes`: membership among the dict keys. -/
def hasIdx : List (String × List String) → String → Bool
  | [], _ => false
  | p :: rest, nm => if p.1 = nm then true else hasIdx rest nm

/-- The `_GET_SECONDARY` Lua script, executed server side:
`local primary = redis.call('GET', KEYS[1]); return redis.call('GET', primary)`.
When the first `GET` finds nothing it yields Lua `false`, and the second
`redis.call` then raises, because its argument is not a string. -/
def scriptGetSecondary (st : RState) (k : String) : Except PyErr (Option Wire) :=
  match rget st k with
  | none =>
      .error (.scriptError "Lua redis lib command arguments must be strings or integers")
  | some primary => .ok (rget st (wireKey primary))

/-! ## Configuration and constructor (`RedisCache.__init__`) -/

/-- The `ttl` entry of the configuration dict: absent (`KeyError`), a
non-integer value such as `None` (`TypeError`), or an integer. -/
inductive TtlConf
  | missing
  | noneVal
  | intVal (n : Int)
deriving DecidableEq

/-- `try: self._ttl = int(conf['ttl']) except KeyError: 0 except TypeError: 0`. -/
def parseTtl : TtlConf → Int
  | .missing => 0
  | .noneVal => 0
  | .intVal n => n

/-- The `fields` entry of one index configuration: a single string, a list
of strings, or some other (invalid) shape. -/
inductive FieldsVal
  | str (s : String)
  | list (l : List String)
  | other
deriving DecidableEq

/-- One index configuration dict; `none` components model missing keys. -/
structure IdxDict where
  name : Option String
  fields : Option FieldsVal
deriving DecidableEq

/-- One entry of `conf['indexes']`: a dict, or a value of some other type. -/
inductive IdxEntry
  | dict (d : IdxDict)
  | nondict
deriving DecidableEq

/-- The configuration dict handed to the constructor (the `redis` connection
section is consumed by the external `nredis` library and not modelled). -/
structure Conf where
  ttl : TtlConf
  indexes : Option (List IdxEntry)
deriving DecidableEq

/-- Python dict assignment `d[k] = v`: replace in place when the key exists,
append otherwise. -/
def dictInsert : List (String × List String) → String → List String →
    List (String × List String)
  | [], k, v => [(k, v)]
  | p :: rest, k, v =>
      if p.1 = k then (k, v) :: rest else p :: dictInsert rest k v

/-- The validation loop over `conf['indexes']`, producing `self._indexes`.
`i` is the position, used in error messages. -/
def buildCatalog : List IdxEntry → Nat → List (String × List String) →
    Except PyErr (List (String × List String))
  | [], _, acc => .ok acc
  | .nondict :: _, i, _ =>
      .error (.valueError ("conf.indexes[" ++ toString i ++ "]")
        "Cache config indexes must be dict")
  | .dict d :: rest, i, acc =>
      match d.fields, d.name with
      | none, _ =>
          .error (.valueError ("conf.indexes[" ++ toString i ++ "]")
            "missing: fields")
      | some _, none =>
          .error (.valueError ("conf.indexes[" ++ toString i ++ "]")
            "missing: name")
      | some fv, some nm =>
          match fv with
          | .other =>
              .error (.valueError ("conf.indexes[" ++ toString i ++ "].fields")
                "Cache config index fields must be str | str[]")
          | .str s => buildCatalog rest (i + 1) (dictInsert acc nm [s])
          | .list fl => buildCatalog rest (i + 1) (dictInsert acc nm fl)

/-- The in-place normalization the constructor performs on the caller's
configuration: a `fields` entry that is a single string becomes a
one-element list inside the caller's dict. -/
def normEntry : IdxEntry → IdxEntry
  | .dict d =>
      match d.fields with
      | some (.str s) => .dict { d with fields := some (.list [s]) }
      | _ => .dict d
  | .nondict => .nondict

/-- `RedisCache.__init__`: parses the ttl, validates the index list and
builds the catalog.  The source mutates `conf` in place; the embedding
returns the configuration object as it stands after construction. -/
def initCache (conf : Conf) : Except PyErr (Cache × Conf) :=
  let t := parseTtl conf.ttl
  match conf.indexes with
  | none => .ok ({ ttl := t, indexes := [] }, conf)
  | some l =>
      match buildCatalog l 0 [] with
      | .error e => .error e
      | .ok cat =>
          .ok ({ ttl := t, indexes := cat },
               { conf with indexes := some (l.map normEntry) })

/-! ## `RedisCache.add_missing` -/

/-- The `_id` argument of `add_missing`: a single string or a list. -/
inductive AddId
  | str (s : String)
  | list (l : List String)
deriving DecidableEq

/-- The return shape of `add_missing`: a single ack or the pipeline's list. -/
inductive AddRes
  | one (b : Bool)
  | many (l : List Bool)
deriving DecidableEq

/-- `len(_id)`: a string has a length too, so no `TypeError` is raised for a
single string id and `iLen` becomes the number of characters. -/
def pyLen : AddId → Nat
  | .str s => s.length
  | .list l => l.length

/-- The sequence `lIDs` is iterated over: iterating a Python string yields
its characters as one-character strings. -/
def addElems : AddId → List String
  | .str s => s.toList.map (fun ch => String.singleton ch)
  | .list l => l

/-- `RedisCache.add_missing(_id, ttl)`: writes the reserved marker `'0'`.
`ttlArg = none` models the `undefined` default, falling back to the
instance ttl.  Returns the round trips performed, the new database state
and the Python return value. -/
def add_missing (c : Cache) (st : RState) (_id : AddId) (ttlArg : Option Int) :
    List Batch × (RState × AddRes) :=
  let ttl := ttlArg.getD c.ttl
  let ids := addElems _id
  if pyLen _id = 1 then
    let k := ids.headD ""
    ([[.set k (.str "0") (exOf ttl)]], (rset st k (.str "0"), .one true))
  else
    let cmds := ids.map (fun k => RCmd.set k (.str "0") (exOf ttl))
    ([cmds],
     (ids.foldl (fun s k => rset s k (.str "0")) st,
      .many (ids.map (fun _ => true))))

/-! ## `RedisCache.fetch` -/

/-- One element of a list-shaped `_id` argument. -/
inductive FetchElem
  | str (s : String)
  | tup (t : List String)
deriving DecidableEq

/-- The `_id` argument of `fetch`. -/
inductive FetchId
  | str (s : String)
  | tup (t : List String)
  | list (l : List FetchElem)
deriving DecidableEq

/-- One classified fetch outcome: Python `None`, `False`, a decoded dict,
or a falsy raw value left in place by the multi-id loop. -/
inductive FetchOne
  | absent
  | negative
  | record (r : Rec)
  | raw (w : Wire)
deriving DecidableEq

/-- The return shape of `fetch`: one outcome, or the list for a multi-id call. -/
inductive FetchRes
  | one (x : FetchOne)
  | many (l : List FetchOne)
deriving DecidableEq

/-- The single-id classification (`if sRecord: ... return None`): a falsy
raw value (absent, or the empty string) becomes `None`; the marker becomes
`False`; anything else is decoded. -/
def classifySingle (o : Option Wire) : Except PyErr FetchOne :=
  match o with
  | none => .ok .absent
  | some w =>
      if truthy w then
        if isMarker w then .ok .negative
        else (decodeWire w).map .record
      else .ok .absent

/-- The multi-id classification loop body: it only rewrites truthy entries,
so an absent entry stays `None` but a falsy raw value (the empty string)
is left in the result list unchanged. -/
def classifyMulti (o : Option Wire) : Except PyErr FetchOne :=
  match o with
  | none => .ok .absent
  | some w =>
      if truthy w then
        if isMarker w then .ok .negative
        else (decodeWire w).map .record
      else .ok (.raw w)

/-- The classification loop over the fetched raw list, aborting like the
Python loop would if a decode raises. -/
def classifyAll : List (Option Wire) → Except PyErr (List FetchOne)
  | [] => .ok []
  | o :: rest =>
      match classifyMulti o with
      | .error e => .error e
      | .ok x =>
          match classifyAll rest with
          | .error e => .error e
          | .ok xs => .ok (x :: xs)

/-- The key text one list element contributes to a secondary-index key
(`isinstance(m, tuple) and ':'.join(m) or m`). -/
def elemKey : FetchElem → String
  | .str s => s
  | .tup t => String.intercalate ":" t

/-- The redis client encodes `mget` arguments; a tuple among the keys is
rejected client side before any command is sent. -/
def elemsToKeys : List FetchElem → Except PyErr (List String)
  | [] => .ok []
  | .str s :: rest => (elemsToKeys rest).map (fun ks => s :: ks)
  | .tup _ :: rest =>
      .error (.dataError "Invalid input of type tuple")

/-- The multi-id, with-index loop: `oPipe` is set to the connection itself,
not to a pipeline, so every script call executes immediately as its own
round trip (its result discarded), and the final `oPipe.execute()` raises
`AttributeError` because the plain connection has no such method. -/
def idxMulti (st : RState) (nm : String) :
    List FetchElem → List Batch → List Batch × Except PyErr FetchRes
  | [], acc => (acc, .error (.attributeError "Redis object has no attribute execute"))
  | e :: rest, acc =>
      let sKey := nm ++ ":" ++ elemKey e
      match scriptGetSecondary st sKey with
      | .error er => (acc ++ [([RCmd.evalScript [sKey]] : Batch)], .error er)
      | .ok _ => idxMulti st nm rest (acc ++ [([RCmd.evalScript [sKey]] : Batch)])

/-- The multi-id, no-index path: one pipelined `mget`, then the
classification loop, preserving input order. -/
def mgetPath (st : RState) (l : List FetchElem) :
    List Batch × Except PyErr FetchRes :=
  match elemsToKeys l with
  | .error e => ([], .error e)
  | .ok keys =>
      match classifyAll (keys.map (rget st)) with
      | .error e => ([[.mget keys]], .error e)
      | .ok outs => ([[.mget keys]], .ok (.many outs))

/-- The body of `fetch` after the unknown-index guard has passed.
`index = some nm` models a supplied index argument; the later `if index:`
truthiness tests are false for the empty string. -/
def fetchBody (c : Cache) (st : RState) (_id : FetchId) (index : Option String) :
    List Batch × Except PyErr FetchRes :=
  match _id with
  | .tup t =>
      match index with
      | none =>
          ([], .error (.valueError "_id"
            "tuples can only be used when fetching a secondary index"))
      | some nm =>
          let sKey := nm ++ ":" ++ String.intercalate ":" t
          match scriptGetSecondary st sKey with
          | .error e => ([[.evalScript [sKey]]], .error e)
          | .ok o => ([[.evalScript [sKey]]], (classifySingle o).map .one)
  | .str s =>
      match index with
      | some nm =>
          if nm = "" then
            ([[.get s]], (classifySingle (rget st s)).map .one)
          else
            let sKey := nm ++ ":" ++ s
            match scriptGetSecondary st sKey with
            | .error e => ([[.evalScript [sKey]]], .error e)
            | .ok o => ([[.evalScript [sKey]]], (classifySingle o).map .one)
      | none => ([[.get s]], (classifySingle (rget st s)).map .one)
  | .list l =>
      match index with
      | some nm =>
          if nm = "" then mgetPath st l
          else idxMulti st nm l []
      | none => mgetPath st l

/-- `RedisCache.fetch(_id, index)`: the unknown-index guard runs first,
before any backing-store operation; then the shape of `_id` selects the
path. -/
def fetch (c : Cache) (st : RState) (_id : FetchId) (index : Option String) :
    List Batch × Except PyErr FetchRes :=
  match index with
  | some nm =>
      if hasIdx c.indexes nm then fetchBody c st _id (some nm)
      else
        ([], .error (.valueError "index"
          ("No such index \"" ++ nm ++ "\"")))
  | none => fetchBody c st _id none

/-! ## `RedisCache.store` -/

/-- Python string subscripting with a string key, as happens when the store
loop iterates `self._indexes` (yielding the dict's keys, which are the
index names) and then evaluates `d['name']`. -/
def pyStrSub (s : String) (k : String) : Except PyErr String :=
  .error (.typeError "string indices must be integers")

/-- `record[s]` for each field name, raising `KeyError` on a missing field. -/
def recordVals (r : Rec) : List String → Except PyErr (List String)
  | [] => .ok []
  | f :: rest =>
      match rlookup r f with
      | none => .error (.keyError f)
      | some v => (recordVals r rest).map (fun vs => v :: vs)
where
  rlookup : Rec → String → Option String
    | [], _ => none
    | p :: ps, f => if p.1 = f then some p.2 else rlookup ps f

/-- The `for d in self._indexes:` loop of `store`, queueing one index `SET`
per iteration.  `d` ranges over the dict's keys (plain strings), so the
very first expression `d['name']` raises `TypeError`; the remainder of the
body is kept to mirror the source but is unreachable. -/
def storeIndexCmds (ttl : Int) (_id : String) (record : Rec) :
    List String → List RCmd → Except PyErr (List RCmd)
  | [], acc => .ok acc
  | d :: rest, acc => do
      let nm ← pyStrSub d "name"
      let fl ← pyStrSub d "fields"
      let vals ← recordVals record [fl]
      let sKey := nm ++ ":" ++ String.intercalate ":" vals
      storeIndexCmds ttl _id record rest (acc ++ [.set sKey (.str _id) (exOf ttl)])

/-- Replay the queued pipeline commands against the database state. -/
def execSets : RState → List RCmd → RState
  | st, [] => st
  | st, .set k v _ :: rest => execSets (rset st k v) rest
  | st, _ :: rest => execSets st rest

/-- `RedisCache.store(_id, record)`: with no indexes configured, one direct
`SET` of the encoded record; with indexes configured, a pipeline is opened
and the primary `SET` queued, but building the first index key raises
before the pipeline is ever executed, so no round trip happens. -/
def store (c : Cache) (st : RState) (_id : String) (record : Rec) :
    List Batch × Except PyErr RState :=
  match c.indexes with
  | [] =>
      ([[.set _id (.enc record) (exOf c.ttl)]],
       .ok (rset st _id (.enc record)))
  | _ :: _ =>
      match storeIndexCmds c.ttl _id record (c.indexes.map Prod.fst)
          [RCmd.set _id (.enc record) (exOf c.ttl)] with
      | .error e => ([], .error e)
      | .ok cmds => ([cmds], .ok (execSets st cmds))

/-! ## Helpers for the theorems -/

instance {e a : Type} [DecidableEq e] [DecidableEq a] : DecidableEq (Except e a) :=
  fun x y =>
    match x, y with
    | .ok u, .ok v =>
        if h : u = v then .isTrue (by rw [h])
        else .isFalse (fun hh => by cases hh; exact h rfl)
    | .error u, .error v =>
        if h : u = v then .isTrue (by rw [h])
        else .isFalse (fun hh => by cases hh; exact h rfl)
    | .ok _, .error _ => .isFalse (fun hh => by cases hh)
    | .error _, .ok _ => .isFalse (fun hh => by cases hh)

/-- Does a command, if it is a `SET`, carry exactly the expiry `e`? -/
def cmdExOk (e : Option Int) : RCmd → Bool
  | .set _ _ x => decide (x = e)
  | _ => true

/-- Every `SET` in the trace carries exactly the expiry `e`. -/
def setsUseEx (tr : List Batch) (e : Option Int) : Bool :=
  tr.all (fun b => b.all (cmdExOk e))

/-! ## The connection registry of the external `nredis` library -/

/-- The server identity deduplicating connections: host, port, logical db. -/
structure ServerIdentity where
  host : String
  port : Nat
  db : Nat
deriving DecidableEq

/-- The process-wide connection registry: the identity-to-connection table
(connections are numbered by creation order) and the number of times the
connection factory has been invoked. -/
structure Registry where
  conns : List (ServerIdentity × Nat)
  created : Nat
deriving DecidableEq

/-- Lookup of an identity in the registry table. -/
def lookupReg : List (ServerIdentity × Nat) → ServerIdentity → Option Nat
  | [], _ => none
  | p :: rest, a => if p.1 = a then some p.2 else lookupReg rest a

/-- Modelled from the spec: the connection deduplication performed by the
external `nredis` library behind `nr(conf['redis'])` — the source under
`src/` only calls it, so `ConnectionRegistry.get_or_create` is modelled
from its contract: return the existing connection for the identity if one
was created earlier; otherwise invoke the factory once, store the result
and return it. -/
def get_or_create (reg : Registry) (idty : ServerIdentity) : Registry × Nat :=
  match lookupReg reg.conns idty with
  | some c => (reg, c)
  | none =>
      ({ conns := (idty, reg.created) :: reg.conns,
         created := reg.created + 1 },
       reg.created)

/-- The concrete configuration used to witness claim C10: one index whose
`fields` entry is the single string `"email"`. -/
def confStrFields : Conf :=
  { ttl := .intVal 30,
    indexes := some [.dict { name := some "by_email",
                             fields := some (.str "email") }] }

/-- The same configuration as the constructor leaves it: `fields` replaced
by a one-element list. -/
def confListFields : Conf :=
  { ttl := .intVal 30,
    indexes := some [.dict { name := some "by_email",
                             fields := some (.list ["email"]) }] }

theorem rget_rset_self (st : RState) (k : String) (v : Wire) :
    rget (rset st k v) k = some v := by
  simp [rget, rset]

theorem rget_rset_ne (st : RState) (k j : String) (v : Wire) (h : k ≠ j) :
    rget (rset st k v) j = rget st j := by
  simp [rget, rset, h]

/-! ## The claims -/

/-- Claim C1: the claim states that `store` on a cache with at least one
secondary index executes a single pipelined batch holding the primary set
plus one set per index.  On the code this is false: the loop
`for d in self._indexes:` iterates the dict's keys (the index names,
plain strings), so building the first secondary key evaluates `d['name']`
on a string and raises `TypeError` while the pipeline is still being
assembled — no batch is ever executed.  This theorem evaluates the code on
an arbitrary cache with at least one configured index. -/
theorem C1_store_with_index_raises (t : Int) (p : String × List String)
    (rest : List (String × List String)) (st : RState) (i : String) (r : Rec) :
    store { ttl := t, indexes := p :: rest } st i r
      = ([], .error (.typeError "string indices must be integers")) := by
  simp [store, storeIndexCmds, pyStrSub, Bind.bind, Except.bind]

/-- Claim C2: the claim states that `add_missing` with a single id performs a
single marker write at that id.  On the code this is false for any id of
length other than one: `len(_id)` measures the string itself, so the id
`"ab"` takes the pipeline branch and iterates the *characters*, writing the
marker at keys `"a"` and `"b"`; the key `"ab"` is never written. -/
theorem C2_add_missing_splits_string_id :
    add_missing { ttl := 0, indexes := [] } [] (.str "ab") none
      = ([[.set "a" (.str "0") none, .set "b" (.str "0") none]],
         ([("b", Wire.str "0"), ("a", Wire.str "0")], .many [true, true])) ∧
    rget (add_missing { ttl := 0, indexes := [] } [] (.str "ab") none).2.1 "ab"
      = none := by
  decide

/-- Claim C3: the claim states that when the secondary-index key is absent
the server-side script returns nothing, so `fetch` yields `None`.  On the
code this is false: `_GET_SECONDARY` has no presence guard, so when
`GET KEYS[1]` finds nothing the second `redis.call('GET', primary)`
receives Lua `false` and raises, and `fetch` propagates the error instead
of returning `None`.  Evaluated on an empty database (the index key is
absent) for an arbitrary tuple and an arbitrary configured index named
`"by_email"`. -/
theorem C3_secondary_absent_raises (t : Int) (fl : List String)
    (rest : List (String × List String)) (tup : List String) :
    fetch { ttl := t, indexes := ("by_email", fl) :: rest } []
        (.tup tup) (some "by_email")
      = ([[.evalScript ["by_email:" ++ String.intercalate ":" tup]]],
         .error (.scriptError
           "Lua redis lib command arguments must be strings or integers")) := by
  simp [fetch, fetchBody, hasIdx, scriptGetSecondary, rget]

/-- Claim C4: with no secondary indexes configured, `store(I, R)` followed by
`fetch(I)` (no index) returns a record equal to `R`: the store is a single
direct `SET` of the encoded record, the fetch is a single direct `GET`,
and decoding the stored encoding yields `R` back. -/
theorem C4_store_fetch_roundtrip (c : Cache) (st : RState) (i : String)
    (r : Rec) (h : c.indexes = []) :
    store c st i r
      = ([[.set i (.enc r) (exOf c.ttl)]], .ok (rset st i (.enc r))) ∧
    fetch c (rset st i (.enc r)) (.str i) none
      = ([[.get i]], .ok (.one (.record r))) := by
  obtain ⟨t, idx⟩ := c
  simp only at h
  subst h
  constructor
  · simp [store]
  · simp [fetch, fetchBody, classifySingle, rget_rset_self, truthy, isMarker,
      decodeWire, Except.map]

/-- Witness for C4 at a concrete cache, database, id and record. -/
theorem C4_store_fetch_roundtrip_witness :
    ({ ttl := 0, indexes := [] } : Cache).indexes = [] ∧
    (store { ttl := 0, indexes := [] } [] "u1" [("email", "a@b.com")]
        = ([[.set "u1" (.enc [("email", "a@b.com")]) (exOf 0)]],
           .ok (rset [] "u1" (.enc [("email", "a@b.com")]))) ∧
     fetch { ttl := 0, indexes := [] }
         (rset [] "u1" (.enc [("email", "a@b.com")])) (.str "u1") none
        = ([[.get "u1"]], .ok (.one (.record [("email", "a@b.com")])))) :=
  ⟨rfl, C4_store_fetch_roundtrip { ttl := 0, indexes := [] } [] "u1"
    [("email", "a@b.com")] rfl⟩

/-- Claim C5 as stated is false in one point: the multi-id loop only rewrites
truthy raw values, so an *empty* raw value (the empty string, which Python
treats as falsy but which is not `None`) is passed through unchanged
rather than classified as Absent.  At a database holding `""` under key
`"k"`, the batch fetch returns the raw empty value, not `None`. -/
theorem C5_empty_raw_not_absent :
    fetch { ttl := 0, indexes := [] } [("k", .str "")] (.list [.str "k"]) none
      = ([[.mget ["k"]]], .ok (.many [.raw (.str "")])) ∧
    FetchOne.raw (.str "") ≠ FetchOne.absent := by
  decide

/-- Claim C5, amended: a multi-id fetch with no index issues one pipelined
multi-get and classifies each raw result independently, preserving input
order — an absent raw value yields Absent, the reserved marker yields
Negative, and any other (truthy) raw value decodes to the Record; an empty
raw string would be passed through unchanged rather than becoming Absent.
In particular, for ids `[I1, I2, I3]` with `I1` stored, `I2` marked
missing and `I3` never touched, the result is
`[Record r1, Negative, Absent]` in that exact order. -/
theorem C5_batch_fetch_order (c : Cache) (st : RState) (i1 i2 i3 : String)
    (r1 : Rec) (h1 : rget st i1 = some (.enc r1))
    (h2 : rget st i2 = some (.str "0")) (h3 : rget st i3 = none) :
    fetch c st (.list [.str i1, .str i2, .str i3]) none
      = ([[.mget [i1, i2, i3]]],
         .ok (.many [.record r1, .negative, .absent])) := by
  simp [fetch, fetchBody, mgetPath, elemsToKeys, classifyAll, classifyMulti,
    h1, h2, h3, truthy, isMarker, decodeWire, Except.map]

/-- Witness for C5 (amended) at a concrete database and concrete ids. -/
theorem C5_batch_fetch_order_witness :
    rget [("i1", .enc [("f", "v")]), ("i2", .str "0")] "i1"
        = some (.enc [("f", "v")]) ∧
    rget [("i1", .enc [("f", "v")]), ("i2", .str "0")] "i2"
        = some (.str "0") ∧
    rget [("i1", .enc [("f", "v")]), ("i2", .str "0")] "i3" = none ∧
    fetch { ttl := 0, indexes := [] }
        [("i1", .enc [("f", "v")]), ("i2", .str "0")]
        (.list [.str "i1", .str "i2", .str "i3"]) none
      = ([[.mget ["i1", "i2", "i3"]]],
         .ok (.many [.record [("f", "v")], .negative, .absent])) :=
  ⟨by decide, by decide, by decide,
   C5_batch_fetch_order { ttl := 0, indexes := [] }
     [("i1", .enc [("f", "v")]), ("i2", .str "0")] "i1" "i2" "i3"
     [("f", "v")] (by decide) (by decide) (by decide)⟩

/-- Claim C6: a `fetch` whose `index` argument names an index missing from
the catalog raises the unknown-index error before any backing-store
operation (the returned round-trip trace is empty), for every shape of the
id argument. -/
theorem C6_unknown_index_no_network (c : Cache) (st : RState) (i : FetchId)
    (nm : String) (h : hasIdx c.indexes nm = false) :
    fetch c st i (some nm)
      = ([], .error (.valueError "index"
          ("No such index \"" ++ nm ++ "\""))) := by
  simp [fetch, h]

/-- Witness for C6 at a concrete cache with one index and an unknown name. -/
theorem C6_unknown_index_no_network_witness :
    hasIdx ({ ttl := 0, indexes := [("by_email", ["email"])] } : Cache).indexes
        "nope" = false ∧
    fetch { ttl := 0, indexes := [("by_email", ["email"])] } [] (.str "x")
        (some "nope")
      = ([], .error (.valueError "index" "No such index \"nope\"")) :=
  ⟨by decide,
   C6_unknown_index_no_network { ttl := 0, indexes := [("by_email", ["email"])] }
     [] (.str "x") "nope" (by decide)⟩

/-- Claim C7: a single tuple id with no index argument fails with the
invalid-argument error (`ValueError` on `_id` in the source, the spec's
`InvalidArgument`), and the returned round-trip trace is empty: no
backing-store operation is performed. -/
theorem C7_tuple_without_index_raises (c : Cache) (st : RState)
    (t : List String) :
    fetch c st (.tup t) none
      = ([], .error (.valueError "_id"
          "tuples can only be used when fetching a secondary index")) := by
  simp [fetch, fetchBody]

theorem setsUseEx_store (c : Cache) (st : RState) (i : String) (r : Rec) :
    setsUseEx (store c st i r).1 (exOf c.ttl) = true := by
  obtain ⟨t0, idx⟩ := c
  cases idx with
  | nil => simp [store, setsUseEx, cmdExOk]
  | cons p rest =>
      simp [store, storeIndexCmds, pyStrSub, Bind.bind, Except.bind, setsUseEx]

theorem setsUseEx_add_missing (c : Cache) (st : RState) (a : AddId)
    (o : Option Int) :
    setsUseEx (add_missing c st a o).1 (exOf (o.getD c.ttl)) = true := by
  unfold add_missing
  by_cases hl : pyLen a = 1
  · simp [hl, setsUseEx, cmdExOk]
  · simp [hl, setsUseEx, cmdExOk, List.all_eq_true]

/-- Claim C8: when the instance ttl is zero (the parsed value of a zero or
missing configuration entry), every `SET` issued by `store` and by
`add_missing` carries no expiry; and `add_missing` called with an explicit
ttl argument stamps every one of its `SET`s with that ttl (sent as no
expiry exactly when it is zero), whatever the instance ttl of the cache
is. -/
theorem C8_ttl_zero_and_override (c c2 : Cache) (st st2 : RState) (i : String)
    (r : Rec) (a a2 : AddId) (t : Int) (h : c.ttl = 0) :
    setsUseEx (store c st i r).1 none = true ∧
    setsUseEx (add_missing c st a none).1 none = true ∧
    setsUseEx (add_missing c2 st2 a2 (some t)).1 (exOf t) = true := by
  refine ⟨?_, ?_, ?_⟩
  · have := setsUseEx_store c st i r
    rw [h] at this
    simpa [exOf] using this
  · have := setsUseEx_add_missing c st a none
    rw [Option.getD_none, h] at this
    simpa [exOf] using this
  · simpa using setsUseEx_add_missing c2 st2 a2 (some t)

/-- Witness for C8 at concrete caches (instance ttl zero, override ttl 5). -/
theorem C8_ttl_zero_and_override_witness :
    ({ ttl := 0, indexes := [] } : Cache).ttl = 0 ∧
    (setsUseEx (store { ttl := 0, indexes := [] } [] "u1" [("a", "b")]).1
        none = true ∧
     setsUseEx (add_missing { ttl := 0, indexes := [] } [] (.list ["x", "y"])
        none).1 none = true ∧
     setsUseEx (add_missing { ttl := 9, indexes := [] } [] (.list ["x", "y"])
        (some 5)).1 (exOf 5) = true) :=
  ⟨rfl, C8_ttl_zero_and_override { ttl := 0, indexes := [] }
    { ttl := 9, indexes := [] } [] [] "u1" [("a", "b")] (.list ["x", "y"])
    (.list ["x", "y"]) 5 rfl⟩

/-- Claim C10: constructing a cache from a configuration whose index at
position `i` gives `fields` as a single string mutates the caller's
configuration in place, replacing that `fields` entry with a one-element
list; the configuration is therefore not left unchanged by construction.
`conf2` is the caller's configuration object as it stands after a
successful construction. -/
theorem C10_constructor_mutates_conf (conf : Conf) (l : List IdxEntry)
    (i : Nat) (d : IdxDict) (s : String) (c : Cache) (conf2 : Conf)
    (hl : conf.indexes = some l)
    (hi : l.get? i = some (.dict d))
    (hf : d.fields = some (.str s))
    (hok : initCache conf = .ok (c, conf2)) :
    conf2.indexes = some (l.map normEntry) ∧
    (l.map normEntry).get? i
      = some (.dict { d with fields := some (.list [s]) }) ∧
    conf2 ≠ conf := by
  simp only [initCache, hl] at hok
  cases hbc : buildCatalog l 0 [] with
  | error e => rw [hbc] at hok; exact absurd hok (by simp)
  | ok cat =>
      rw [hbc] at hok
      simp only [Except.ok.injEq, Prod.mk.injEq] at hok
      obtain ⟨hc, hconf2⟩ := hok
      have h2 : conf2.indexes = some (l.map normEntry) := by
        rw [← hconf2]
      refine ⟨h2, ?_, ?_⟩
      · rw [List.get?_map, hi]
        simp [normEntry, hf]
      · intro he
        rw [he, hl] at h2
        injection h2 with h3
        have h4 := congrArg (fun ls : List IdxEntry => ls.get? i) h3
        simp only [List.get?_map, hi] at h4
        simp [normEntry, hf] at h4
        have h5 := congrArg IdxDict.fields h4
        simp only at h5
        rw [hf] at h5
        exact absurd h5 (by simp)


/-- Witness for C10 at a concrete configuration with one string-valued
`fields` entry. -/
theorem C10_constructor_mutates_conf_witness :
    confStrFields.indexes
      = some [.dict { name := some "by_email",
                      fields := some (.str "email") }] ∧
    ([IdxEntry.dict { name := some "by_email",
                      fields := some (.str "email") }].get? 0
      = some (.dict { name := some "by_email",
                      fields := some (.str "email") })) ∧
    ({ name := some "by_email", fields := some (.str "email") } : IdxDict).fields
      = some (.str "email") ∧
    initCache confStrFields
      = .ok ({ ttl := 30, indexes := [("by_email", ["email"])] },
             confListFields) ∧
    (confListFields.indexes
        = some ([IdxEntry.dict { name := some "by_email",
                                 fields := some (.str "email") }].map normEntry) ∧
     ([IdxEntry.dict { name := some "by_email",
                       fields := some (.str "email") }].map normEntry).get? 0
        = some (.dict { name := some "by_email",
                        fields := some (.list ["email"]) }) ∧
     confListFields ≠ confStrFields) :=
  ⟨rfl, rfl, rfl, by decide,
   C10_constructor_mutates_conf confStrFields
     [.dict { name := some "by_email", fields := some (.str "email") }]
     0 { name := some "by_email", fields := some (.str "email") } "email"
     { ttl := 30, indexes := [("by_email", ["email"])] }
     confListFields rfl rfl rfl (by decide)⟩

/-- Claim C9: two cache instances constructed with an identical server
identity share one underlying connection.  Against the registry modelled
from the spec, a second `get_or_create` with the same identity — after any
prior registry state whatsoever, which covers any serialization of
concurrent constructions — returns the very same connection and leaves the
registry, including the factory-invocation count, untouched; and starting
from a fresh process, two constructions with one identity invoke the
factory exactly once. -/
theorem C9_connection_shared (reg : Registry) (a : ServerIdentity) :
    (get_or_create (get_or_create reg a).1 a).2 = (get_or_create reg a).2 ∧
    (get_or_create (get_or_create reg a).1 a).1 = (get_or_create reg a).1 ∧
    (get_or_create (get_or_create { conns := [], created := 0 } a).1 a).1.created
      = 1 := by
  refine ⟨?_, ?_, ?_⟩ <;>
    cases h : lookupReg reg.conns a <;>
      simp [get_or_create, lookupReg, h]
